import Mathlib

/-!
Verification of the frame-ai photography-coaching service.

Bytes are modelled as `List Nat` (each entry a value `< 256`); Python
strings become Lean `String`; Python floats become `ℚ`; machine 32-bit
words are `Nat` reduced with `% 2^32`.
-/

/-- Reduce a natural number to a 32-bit word. -/
def u32 (x : Nat) : Nat := x % 4294967296

/-- 32-bit right rotation. -/
def rotr32 (x n : Nat) : Nat := u32 ((x >>> n) ||| (x <<< (32 - n)))

/-- 32-bit left rotation. -/
def rotl32 (x n : Nat) : Nat := u32 ((x <<< n) ||| (x >>> (32 - n)))

/-- Big-endian bytes of a number, `k` bytes wide. -/
def natBytesBE : Nat → Nat → List Nat
  | 0, _ => []
  | k + 1, n => natBytesBE k (n >>> 8) ++ [n % 256]

/-- Little-endian bytes of a number, `k` bytes wide. -/
def natBytesLE : Nat → Nat → List Nat
  | 0, _ => []
  | k + 1, n => n % 256 :: natBytesLE k (n >>> 8)

/-- Big-endian bytes of a 32-bit word. -/
def wordBytesBE (w : Nat) : List Nat :=
  [(w >>> 24) % 256, (w >>> 16) % 256, (w >>> 8) % 256, w % 256]

/-- Little-endian bytes of a 32-bit word. -/
def wordBytesLE (w : Nat) : List Nat :=
  [w % 256, (w >>> 8) % 256, (w >>> 16) % 256, (w >>> 24) % 256]

/-- Group bytes into big-endian 32-bit words. -/
def bytesToWordsBE : List Nat → List Nat
  | b0 :: b1 :: b2 :: b3 :: rest =>
      (b3 ||| (b2 <<< 8) ||| (b1 <<< 16) ||| (b0 <<< 24)) :: bytesToWordsBE rest
  | _ => []

/-- Group bytes into little-endian 32-bit words. -/
def bytesToWordsLE : List Nat → List Nat
  | b0 :: b1 :: b2 :: b3 :: rest =>
      ((b3 <<< 24) ||| (b2 <<< 16) ||| (b1 <<< 8) ||| b0) :: bytesToWordsLE rest
  | _ => []

/-- Split a byte list into 64-byte blocks; `fuel` bounds the recursion and
is instantiated with the list length (so it never runs out). -/
def chunksAux : Nat → List Nat → List (List Nat)
  | 0, _ => []
  | _, [] => []
  | fuel + 1, x :: rest => ((x :: rest).take 64) :: chunksAux fuel ((x :: rest).drop 64)

/-- Split a byte list into 64-byte blocks. -/
def chunks64 (l : List Nat) : List (List Nat) := chunksAux l.length l

/-- Merkle–Damgård padding shared by MD5 and SHA-256: append `0x80`,
then zeros up to 56 bytes mod 64, then the 8-byte bit length
(`lenBytes` fixes the endianness of the length field). -/
def padMessage (lenBytes : Nat → List Nat) (msg : List Nat) : List Nat :=
  let L := msg.length
  let z := (119 - (L % 64)) % 64
  msg ++ [128] ++ List.replicate z 0 ++ lenBytes (8 * L)

/-- SHA-256 round constants (FIPS 180-4). -/
def sha256K : List Nat :=
  [1116352408, 1899447441, 3049323471, 3921009573, 961987163, 1508970993,
   2453635748, 2870763221, 3624381080, 310598401, 607225278, 1426881987,
   1925078388, 2162078206, 2614888103, 3248222580, 3835390401, 4022224774,
   264347078, 604807628, 770255983, 1249150122, 1555081692, 1996064986,
   2554220882, 2821834349, 2952996808, 3210313671, 3336571891, 3584528711,
   113926993, 338241895, 666307205, 773529912, 1294757372, 1396182291,
   1695183700, 1986661051, 2177026350, 2456956037, 2730485921, 2820302411,
   3259730800, 3345764771, 3516065817, 3600352804, 4094571909, 275423344,
   430227734, 506948616, 659060556, 883997877, 958139571, 1322822218,
   1537002063, 1747873779, 1955562222, 2024104815, 2227730452, 2361852424,
   2428436474, 2756734187, 3204031479, 3329325298]

/-- SHA-256 working state: eight 32-bit words. -/
structure Sha256State where
  a : Nat
  b : Nat
  c : Nat
  d : Nat
  e : Nat
  f : Nat
  g : Nat
  hh : Nat

/-- SHA-256 initial hash value. -/
def sha256Init : Sha256State :=
  ⟨1779033703, 3144134277, 1013904242, 2773480762,
   1359893119, 2600822924, 528734635, 1541459225⟩

/-- Extend a 16-word block to the 64-word message schedule
(`n` remaining extension steps). -/
def sha256Extend : List Nat → Nat → List Nat
  | w, 0 => w
  | w, n + 1 =>
      let i := w.length
      let w15 := w.getD (i - 15) 0
      let w2 := w.getD (i - 2) 0
      let w16 := w.getD (i - 16) 0
      let w7 := w.getD (i - 7) 0
      let s0 := rotr32 w15 7 ^^^ rotr32 w15 18 ^^^ (w15 >>> 3)
      let s1 := rotr32 w2 17 ^^^ rotr32 w2 19 ^^^ (w2 >>> 10)
      sha256Extend (w ++ [u32 (w16 + s0 + w7 + s1)]) n

/-- One SHA-256 compression round. -/
def sha256Round (st : Sha256State) (k w : Nat) : Sha256State :=
  let S1 := rotr32 st.e 6 ^^^ rotr32 st.e 11 ^^^ rotr32 st.e 25
  let ch := (st.e &&& st.f) ^^^ ((st.e ^^^ 0xffffffff) &&& st.g)
  let temp1 := u32 (st.hh + S1 + ch + k + w)
  let S0 := rotr32 st.a 2 ^^^ rotr32 st.a 13 ^^^ rotr32 st.a 22
  let maj := (st.a &&& st.b) ^^^ (st.a &&& st.c) ^^^ (st.b &&& st.c)
  let temp2 := u32 (S0 + maj)
  ⟨u32 (temp1 + temp2), st.a, st.b, st.c, u32 (st.d + temp1), st.e, st.f, st.g⟩

/-- SHA-256 compression of one 64-byte block. -/
def sha256Compress (st : Sha256State) (block : List Nat) : Sha256State :=
  let w := sha256Extend (bytesToWordsBE block) 48
  let t := (sha256K.zip w).foldl (fun s kw => sha256Round s kw.1 kw.2) st
  ⟨u32 (st.a + t.a), u32 (st.b + t.b), u32 (st.c + t.c), u32 (st.d + t.d),
   u32 (st.e + t.e), u32 (st.f + t.f), u32 (st.g + t.g), u32 (st.hh + t.hh)⟩

/-- SHA-256 digest (32 bytes) of a byte string. -/
def sha256Bytes (msg : List Nat) : List Nat :=
  let st := (chunks64 (padMessage (natBytesBE 8) msg)).foldl sha256Compress sha256Init
  wordBytesBE st.a ++ wordBytesBE st.b ++ wordBytesBE st.c ++ wordBytesBE st.d ++
  wordBytesBE st.e ++ wordBytesBE st.f ++ wordBytesBE st.g ++ wordBytesBE st.hh

/-- MD5 sine-table constants (RFC 1321). -/
def md5K : List Nat :=
  [3614090360, 3905402710, 606105819, 3250441966, 4118548399, 1200080426,
   2821735955, 4249261313, 1770035416, 2336552879, 4294925233, 2304563134,
   1804603682, 4254626195, 2792965006, 1236535329, 4129170786, 3225465664,
   643717713, 3921069994, 3593408605, 38016083, 3634488961, 3889429448,
   568446438, 3275163606, 4107603335, 1163531501, 2850285829, 4243563512,
   1735328473, 2368359562, 4294588738, 2272392833, 1839030562, 4259657740,
   2763975236, 1272893353, 4139469664, 3200236656, 681279174, 3936430074,
   3572445317, 76029189, 3654602809, 3873151461, 530742520, 3299628645,
   4096336452, 1126891415, 2878612391, 4237533241, 1700485571, 2399980690,
   4293915773, 2240044497, 1873313359, 4264355552, 2734768916, 1309151649,
   4149444226, 3174756917, 718787259, 3951481745]

/-- MD5 per-round left-rotation amounts (RFC 1321). -/
def md5S : List Nat :=
  [7, 12, 17, 22, 7, 12, 17, 22, 7, 12, 17, 22, 7, 12, 17, 22,
   5, 9, 14, 20, 5, 9, 14, 20, 5, 9, 14, 20, 5, 9, 14, 20,
   4, 11, 16, 23, 4, 11, 16, 23, 4, 11, 16, 23, 4, 11, 16, 23,
   6, 10, 15, 21, 6, 10, 15, 21, 6, 10, 15, 21, 6, 10, 15, 21]

/-- MD5 working state: four 32-bit words. -/
structure Md5State where
  a : Nat
  b : Nat
  c : Nat
  d : Nat

/-- MD5 initial state. -/
def md5Init : Md5State := ⟨1732584193, 4023233417, 2562383102, 271733878⟩

/-- One MD5 round `i` (0–63) over message words `m`. -/
def md5Round (m : List Nat) (st : Md5State) (i : Nat) : Md5State :=
  let fg : Nat × Nat :=
    if i < 16 then ((st.b &&& st.c) ||| ((st.b ^^^ 0xffffffff) &&& st.d), i)
    else if i < 32 then
      ((st.d &&& st.b) ||| ((st.d ^^^ 0xffffffff) &&& st.c), (5 * i + 1) % 16)
    else if i < 48 then (st.b ^^^ st.c ^^^ st.d, (3 * i + 5) % 16)
    else (st.c ^^^ (st.b ||| (st.d ^^^ 0xffffffff)), (7 * i) % 16)
  let fv := u32 (fg.1 + st.a + md5K.getD i 0 + m.getD fg.2 0)
  ⟨st.d, u32 (st.b + rotl32 fv (md5S.getD i 0)), st.b, st.c⟩

/-- MD5 compression of one 64-byte block. -/
def md5Compress (st : Md5State) (block : List Nat) : Md5State :=
  let m := bytesToWordsLE block
  let t := (List.range 64).foldl (md5Round m) st
  ⟨u32 (st.a + t.a), u32 (st.b + t.b), u32 (st.c + t.c), u32 (st.d + t.d)⟩

/-- MD5 digest (16 bytes) of a byte string. -/
def md5Bytes (msg : List Nat) : List Nat :=
  let st := (chunks64 (padMessage (natBytesLE 8) msg)).foldl md5Compress md5Init
  wordBytesLE st.a ++ wordBytesLE st.b ++ wordBytesLE st.c ++ wordBytesLE st.d

/-- One lowercase hex character for a value `< 16`. -/
def hexChar (n : Nat) : Char :=
  if n < 10 then Char.ofNat (48 + n) else Char.ofNat (87 + n)

/-- Lowercase hex string of a byte list (the Python `hexdigest` rendering). -/
def bytesHex (bs : List Nat) : String :=
  String.mk ((bs.map fun b => [hexChar (b / 16 % 16), hexChar (b % 16)]).flatten)

/-- Source `main.get_content_hash`: SHA-256 hex digest of the raw upload bytes,
used as the cache key (src/main.py lines 96–111). -/
def get_content_hash (file_content : List Nat) : String :=
  bytesHex (sha256Bytes file_content)

/-- Source `utils.helpers.get_content_hash` (src/utils/helpers.py lines 52–71):
the same SHA-256 hex digest. -/
def helpers.get_content_hash (file_content : List Nat) : String :=
  bytesHex (sha256Bytes file_content)

namespace AnalysisDatabase

/-- Source `AnalysisDatabase.get_file_hash` (src/services/database.py lines 39–45):
an MD5 digest accumulated over 4096-byte reads of the file, which equals the
MD5 digest of the whole file content; the file is modelled by its bytes. -/
def get_file_hash (file_bytes : List Nat) : String :=
  bytesHex (md5Bytes file_bytes)

/-- Source `AnalysisDatabase.get_content_hash` (src/services/database.py lines
55–57): the MD5 hex digest of the given bytes. -/
def get_content_hash (content : List Nat) : String :=
  bytesHex (md5Bytes content)

end AnalysisDatabase

/-- Python `round(x, 2)` modelled over `ℚ`: round to the nearest multiple
of 1/100, ties to the even hundredth (Python's round-half-even). -/
def round2 (x : ℚ) : ℚ :=
  let y := x * 100
  let f := ⌊y⌋
  let r := y - (f : ℚ)
  let n : ℤ :=
    if r < 1 / 2 then f
    else if 1 / 2 < r then f + 1
    else if f % 2 = 0 then f else f + 1
  (n : ℚ) / 100

/-- The pixel statistics that the quality heuristics in
src/services/tools.py read from a decoded image: `lapVar` is the variance
of the Laplacian response, `usedRange` the count of histogram bins above
1% of the peak, `stdDev` the grayscale standard deviation, `avgEntropy`
the mean per-channel color entropy, `uniqueColors` and `maxPossible` the
unique-color count and its cap, `satMean` the mean HSV saturation. -/
structure ImageStats where
  lapVar : ℚ
  usedRange : Nat
  stdDev : ℚ
  avgEntropy : ℚ
  uniqueColors : Nat
  maxPossible : Nat
  satMean : ℚ

/-- Source `calculate_sharpness` (src/services/tools.py lines 7–28). -/
def calculate_sharpness (s : ImageStats) : ℚ :=
  min 100 (s.lapVar / 10)

/-- Source `calculate_dynamic_range` (src/services/tools.py lines 31–61). -/
def calculate_dynamic_range (s : ImageStats) : ℚ :=
  let range_score := ((s.usedRange : ℚ) / 256) * 100
  let spread_score := (s.stdDev / 128) * 100
  let dynamic_range := range_score * 0.4 + spread_score * 0.6
  min 100 dynamic_range

/-- Source `calculate_color_richness` (src/services/tools.py lines 64–105). -/
def calculate_color_richness (s : ImageStats) : ℚ :=
  let diversity_score := ((s.uniqueColors : ℚ) / (s.maxPossible : ℚ)) * 100
  let saturation := s.satMean / 255 * 100
  let color_richness := s.avgEntropy / 8 * 40 + diversity_score * 0.3 + saturation * 0.3
  min 100 color_richness

/-- Source `calculate_overall_quality` (src/services/tools.py lines 108–125). -/
def calculate_overall_quality (sharpness dynamic_range color_richness : ℚ) : ℚ :=
  let quality := sharpness * 0.4 + dynamic_range * 0.35 + color_richness * 0.25
  round2 quality

/-- Source `calculate_image_metrics` (src/services/tools.py lines 128–159), the
returned dict as an association list in insertion order. -/
def calculate_image_metrics (s : ImageStats) : List (String × ℚ) :=
  let sharpness := round2 (calculate_sharpness s)
  let dynamic_range := round2 (calculate_dynamic_range s)
  let color_richness := round2 (calculate_color_richness s)
  let overall_quality := calculate_overall_quality sharpness dynamic_range color_richness
  [("sharpness", sharpness), ("dynamic_range", dynamic_range),
   ("color_richness", color_richness), ("overall_quality", overall_quality)]

/-- Dict lookup `m[k]` for the metric dicts (all keys used are present,
so the 0 default is never observed). -/
def metricLookup (m : List (String × ℚ)) (k : String) : ℚ :=
  (((m.find? fun p => p.1 == k).map Prod.snd).getD 0)

/-- The readable-image check of `calculate_image_metrics`: a decoded image
yields its statistics, an unreadable path raises. -/
def calculate_image_metrics_checked (img : Except String ImageStats) :
    Except String (List (String × ℚ)) :=
  match img with
  | .ok s => .ok (calculate_image_metrics s)
  | .error e => .error ("Failed to calculate image metrics: " ++ e)

/-- The result dict of `compare_image_metrics`. -/
structure CompareResult where
  original : List (String × ℚ)
  edited : List (String × ℚ)
  changes : List (String × ℚ)

/-- Source `compare_image_metrics` (src/services/tools.py lines 162–198); each
image argument is either its decoded statistics or a read failure. -/
def compare_image_metrics (original edited : Except String ImageStats) :
    Except String CompareResult :=
  match calculate_image_metrics_checked original, calculate_image_metrics_checked edited with
  | .ok original_metrics, .ok edited_metrics =>
      let changes := original_metrics.flatMap fun p =>
        let absolute_change := metricLookup edited_metrics p.1 - p.2
        let percent_change := if p.2 ≠ 0 then absolute_change / p.2 * 100 else 0
        [(p.1, round2 absolute_change), (p.1 ++ "_percent", round2 percent_change)]
      .ok ⟨original_metrics, edited_metrics, changes⟩
  | .error e, _ => .error ("Failed to compare image metrics: " ++ e)
  | _, .error e => .error ("Failed to compare image metrics: " ++ e)

/-- One row of the `analysis_results` table (src/services/database.py
lines 12–37); `created_at` is the insertion timestamp. -/
structure AnalysisRow where
  id : Nat
  ip_address : String
  filename : String
  file_hash : String
  analysis_text : String
  exif_data : Option String
  image_path : Option String
  created_at : Nat
deriving DecidableEq

/-- Source `AnalysisDatabase.get_analysis_by_hash` (src/services/database.py
lines 108–129): the matching row with the latest `created_at` (the SQL
`ORDER BY created_at DESC LIMIT 1`; on equal timestamps the earlier row of
the table is kept, one of the orders SQLite may return). -/
def get_analysis_by_hash (tbl : List AnalysisRow) (file_hash : String) :
    Option AnalysisRow :=
  (tbl.filter fun r => r.file_hash == file_hash).foldl
    (fun acc r =>
      match acc with
      | none => some r
      | some b => if b.created_at < r.created_at then some r else some b)
    none

/-- The next AUTOINCREMENT id of the table. -/
def nextId (tbl : List AnalysisRow) : Nat :=
  (tbl.foldl (fun m r => max m r.id) 0) + 1

/-- Source `AnalysisDatabase.store_analysis` (src/services/database.py
lines 59–81): `INSERT OR REPLACE` under the `UNIQUE(ip_address, file_hash)`
constraint replaces any row with the same key and assigns a fresh id;
returns the updated table and the new row id. -/
def store_analysis (tbl : List AnalysisRow) (ip_address filename file_hash
    analysis_text : String) (exif_data : Option String)
    (image_path : Option String) (now : Nat) : List AnalysisRow × Nat :=
  let remaining := tbl.filter fun r =>
    !(r.ip_address == ip_address && r.file_hash == file_hash)
  let rowid := nextId tbl
  (remaining ++ [⟨rowid, ip_address, filename, file_hash, analysis_text,
    exif_data, image_path, now⟩], rowid)

/-- Source `AnalysisDatabase.delete_analysis` (src/services/database.py
lines 147–158): `DELETE ... WHERE id = ? AND ip_address = ?`, returning
the remaining table and whether `rowcount > 0`. -/
def delete_analysis (tbl : List AnalysisRow) (analysis_id : Nat)
    (ip_address : String) : List AnalysisRow × Bool :=
  let rowcount := tbl.countP fun r =>
    r.id == analysis_id && r.ip_address == ip_address
  (tbl.filter (fun r => !(r.id == analysis_id && r.ip_address == ip_address)),
   decide (0 < rowcount))

/-- Hex characters (lowercase) of a value below 0x10000, 4 digits wide. -/
def hex4 (n : Nat) : List Char :=
  [hexChar (n / 4096 % 16), hexChar (n / 256 % 16), hexChar (n / 16 % 16),
   hexChar (n % 16)]

/-- JSON escape of one character as Python `json.dumps` produces it with
its default `ensure_ascii=True`: the two-character escapes, `\uXXXX` for
other control or non-ASCII characters, surrogate pairs beyond the BMP. -/
def jsonEscapeChar (c : Char) : List Char :=
  if c = '"' then ['\\', '"']
  else if c = '\\' then ['\\', '\\']
  else if c = '\n' then ['\\', 'n']
  else if c = '\r' then ['\\', 'r']
  else if c = '\t' then ['\\', 't']
  else if c = Char.ofNat 8 then ['\\', 'b']
  else if c = Char.ofNat 12 then ['\\', 'f']
  else if c.toNat < 32 ∨ 126 < c.toNat then
    if c.toNat < 65536 then '\\' :: 'u' :: hex4 c.toNat
    else
      ('\\' :: 'u' :: hex4 (55296 + (c.toNat - 65536) / 1024)) ++
      ('\\' :: 'u' :: hex4 (56320 + (c.toNat - 65536) % 1024))
  else [c]

/-- A JSON string literal for `s`, as `json.dumps` renders it. -/
def jsonStr (s : String) : String :=
  String.mk (['"'] ++ s.data.flatMap jsonEscapeChar ++ ['"'])

/-- A one-key JSON object, `json.dumps` rendering with its default
separators. -/
def jsonObj1 (k v : String) : String :=
  "\x7b" ++ jsonStr k ++ ": " ++ jsonStr v ++ "\x7d"

/-- The `json.dumps` rendering of the two-key objects that the /upload
stream emits. -/
def typeContentJson (ty content : String) : String :=
  "\x7b\"type\": " ++ jsonStr ty ++ ", \"content\": " ++ jsonStr content ++ "\x7d"

/-- The `json.dumps` rendering of the terminal event payload. -/
def doneJson : String := "\x7b\"type\": \"done\"\x7d"

/-- One server-sent-event frame of the /upload stream: a `data:` line and
a blank line. -/
def sseEvent (body : String) : String := "data: " ++ body ++ "\n\n"

/-- The observable actions of one /upload request, in the order the
handler performs them. -/
inductive ReqAction where
  | readBody
  | computeHash
  | dbLookup
  | writeStoredFile (path : String)
  | writeTempFile (path : String)
  | invokeAnalyzer
  | dbStore
  | removeTempFile (path : String)
deriving DecidableEq

/-- The in-memory cache statistics dict of src/main.py line 76. -/
structure CacheStats where
  hits : Nat
  misses : Nat
  uploads : Nat
deriving DecidableEq

/-- The server state one /upload request can change: the statistics
counters, the `analysis_results` table and the stored-image directory. -/
structure ServerState where
  stats : CacheStats
  table : List AnalysisRow
  files : List String
deriving DecidableEq

/-- A FastAPI `HTTPException`. -/
structure HTTPError where
  status_code : Nat
  detail : String
deriving DecidableEq

/-- The inputs of one /upload request together with the outcomes of the
calls whose results the handler only consumes. The fields `chunks`,
`streamErr` and `exif_context` are modelled from the spec: the methods
`PhotoAnalyzer.analyze_photo_from_file_stream` and
`PhotoAnalyzer.get_exif_context_from_file` are not among the sources, so
the vision-LLM analysis stream is taken as an arbitrary chunk list
(optionally ending in a raised error), per the spec's streaming-relay
description. -/
structure UploadEnv where
  content_type : Option String
  filename : Option String
  file_content : List Nat
  client : Option String
  temp_path : String
  now : Nat
  lookupFails : Bool
  storeFails : Bool
  chunks : List String
  streamErr : Option String
  exif_context : String

/-- The content-type validation of src/main.py line 117; Python
startswith is prefix comparison on the characters. -/
def contentTypeOk (content_type : Option String) : Bool :=
  match content_type with
  | none => false
  | some ct => "image/".data.isPrefixOf ct.data

/-- Extension part of Python `os.path.splitext`: the suffix from the last
dot of the basename, where the basename's leading dots never open an
extension. -/
def splitextExt (p : String) : String :=
  let revBase := p.data.reverse.takeWhile (· ≠ '/')
  let base := revBase.reverse
  let lead := (base.takeWhile (· = '.')).length
  match revBase.findIdx? (· = '.') with
  | none => ""
  | some j =>
      let i := base.length - 1 - j
      if i < lead then "" else String.mk (base.drop i)

/-- The marker string that splits a stored analysis into its detailed and
JSON parts (src/main.py line 186). -/
def JSON_MARKER : String := " *#123JSON PARSING START: "

/-- The tag opening the detailed part of a stored analysis. -/
def DETAILED_TAG : String := "DETAILED ANALYSIS: "

/-- Index of the first occurrence of `pat` in `text`, Python `str.find`
restricted to found/not-found. -/
def findSub (pat : List Char) : List Char → Option Nat
  | [] => if pat.isEmpty then some 0 else none
  | c :: rest =>
      if pat.isPrefixOf (c :: rest) then some 0
      else (findSub pat rest).map (· + 1)

/-- Python `text.split(sep, 1)` when `sep` occurs in `text`. -/
def splitOnce (sep text : String) : Option (String × String) :=
  match findSub sep.data text.data with
  | none => none
  | some i =>
      some (String.mk (text.data.take i),
            String.mk (text.data.drop (i + sep.data.length)))

/-- Python `text.replace(old, "")`, removing every occurrence; the fuel is
the text length, enough since each step consumes at least one character. -/
def pyRemoveAux (old : List Char) : Nat → List Char → List Char
  | _, [] => []
  | 0, l => l
  | fuel + 1, c :: rest =>
      if !old.isEmpty && old.isPrefixOf (c :: rest) then
        pyRemoveAux old fuel ((c :: rest).drop old.length)
      else c :: pyRemoveAux old fuel rest

/-- Python `text.replace(old, "")` on strings. -/
def pyRemove (old text : String) : String :=
  String.mk (pyRemoveAux old.data text.data.length text.data)

/-- The chunk events of the cached branch of `generate_analysis`
(src/main.py lines 182–205): split at the JSON marker when present,
re-emit the detailed part (with the tag stripped then re-prefixed), the
marker and the JSON part; otherwise forward the stored text as one chunk. -/
def cachedChunkEvents (full_analysis : String) : List String :=
  match splitOnce JSON_MARKER full_analysis with
  | some (detailed_part, json_part) =>
      (if DETAILED_TAG.data.isPrefixOf detailed_part.data then
        [sseEvent (typeContentJson "chunk"
          (DETAILED_TAG ++ pyRemove DETAILED_TAG detailed_part))]
      else []) ++
      [sseEvent (typeContentJson "chunk" JSON_MARKER),
       sseEvent (typeContentJson "chunk" json_part)]
  | none => [sseEvent (typeContentJson "chunk" full_analysis)]

/-- All events of the cached branch of `generate_analysis` (src/main.py
lines 176–217); its `except` arm only fires on runtime failures outside
this model. -/
def cachedEvents (analysis_text : String) : List String :=
  [sseEvent (typeContentJson "cache_hit" "Found previous analysis for this image"),
   sseEvent (typeContentJson "analyzing" "Loading cached analysis...")] ++
  cachedChunkEvents analysis_text ++
  [sseEvent doneJson]

/-- All events of the new-analysis branch of `generate_analysis`
(src/main.py lines 219–253): the analyzing notice, one chunk event per
analyzer chunk in arrival order, an error event if the stream raised, and
the done event from the `finally` block. -/
def newAnalysisEvents (chunks : List String) (streamErr : Option String) :
    List String :=
  [sseEvent (typeContentJson "analyzing" "Analyzing new image...")] ++
  chunks.map (fun c => sseEvent (typeContentJson "chunk" c)) ++
  (match streamErr with
   | some e => [sseEvent (typeContentJson "error" e)]
   | none => []) ++
  [sseEvent doneJson]

/-- The two header lines yielded before the branch on the cache result
(src/main.py lines 173–174). -/
def headerEvents (file_hash temp_path : String) : List String :=
  ["file_hash: " ++ jsonObj1 "file_hash" file_hash ++ "\n\n",
   "file_name: " ++ jsonObj1 "file_name" temp_path ++ "\n\n"]

/-- The body of `upload_and_analyze` after content-type validation
(src/main.py lines 120–259), with the response stream fully consumed:
returns the event list, the new server state and the action trace. -/
def upload_body (env : UploadEnv) (st : ServerState) :
    List String × ServerState × List ReqAction :=
  let file_content := env.file_content
  let file_hash := get_content_hash file_content
  let client_ip := env.client.getD "unknown"
  let stats1 : CacheStats :=
    { st.stats with uploads := st.stats.uploads + 1 }
  let cached := if env.lookupFails then none
    else get_analysis_by_hash st.table file_hash
  let stats2 : CacheStats :=
    if cached.isSome then { stats1 with hits := stats1.hits + 1 }
    else { stats1 with misses := stats1.misses + 1 }
  let file_extension := match env.filename with
    | some fn => if fn = "" then ".jpg" else splitextExt fn
    | none => ".jpg"
  let stored_image_path := "static/uploaded_images/" ++ file_hash ++ file_extension
  let files2 :=
    if st.files.contains stored_image_path then st.files
    else st.files ++ [stored_image_path]
  let writeActs :=
    if st.files.contains stored_image_path then ([] : List ReqAction)
    else [ReqAction.writeStoredFile stored_image_path]
  let temp_file_path := env.temp_path
  let preActs := [ReqAction.readBody, ReqAction.computeHash, ReqAction.dbLookup] ++
    writeActs ++ [ReqAction.writeTempFile temp_file_path]
  match cached with
  | some row =>
      (headerEvents file_hash temp_file_path ++ cachedEvents row.analysis_text,
       ⟨stats2, st.table, files2⟩,
       preActs ++ [ReqAction.removeTempFile temp_file_path])
  | none =>
      let events := headerEvents file_hash temp_file_path ++
        newAnalysisEvents env.chunks env.streamErr
      let fname := match env.filename with
        | some fn => if fn = "" then "unknown" else fn
        | none => "unknown"
      let storeOk := !env.chunks.isEmpty && !env.storeFails
      let table2 :=
        if storeOk then
          (store_analysis st.table client_ip fname file_hash
            (String.join env.chunks)
            (some ("\x7b\"exif_context\": " ++ jsonStr env.exif_context ++ "\x7d"))
            (some stored_image_path) env.now).1
        else st.table
      let storeActs := if storeOk then [ReqAction.dbStore] else ([] : List ReqAction)
      (events, ⟨stats2, table2, files2⟩,
       preActs ++ [ReqAction.invokeAnalyzer] ++ storeActs ++
       [ReqAction.removeTempFile temp_file_path])

/-- Source `upload_and_analyze` (src/main.py lines 114–259): HTTP 400 on a
missing or non-image content type, otherwise the streamed analysis. -/
def upload_and_analyze (env : UploadEnv) (st : ServerState) :
    Except HTTPError (List String) × ServerState × List ReqAction :=
  if contentTypeOk env.content_type then
    let r := upload_body env st
    (.ok r.1, r.2.1, r.2.2)
  else
    (.error ⟨400, "File must be an image"⟩, st, [])

/-- The response dict of the /cache/stats endpoint. -/
structure CacheStatsReport where
  cache_hits : Nat
  cache_misses : Nat
  total_uploads : Nat
  hit_rate_percent : ℚ
  unique_images_stored : Nat
  deduplication_savings : Int
deriving DecidableEq

/-- Source `get_cache_stats` (src/main.py lines 437–473); the unique-image
count comes from listing the upload directory, here the tracked file list. -/
def get_cache_stats (st : ServerState) : CacheStatsReport :=
  let unique_images := st.files.length
  let total_requests := st.stats.hits + st.stats.misses
  let hit_rate : ℚ :=
    if 0 < total_requests then (st.stats.hits : ℚ) / (total_requests : ℚ) * 100
    else 0
  { cache_hits := st.stats.hits
    cache_misses := st.stats.misses
    total_uploads := st.stats.uploads
    hit_rate_percent := round2 hit_rate
    unique_images_stored := unique_images
    deduplication_savings :=
      if 0 < st.stats.uploads then (st.stats.uploads : Int) - (unique_images : Int)
      else 0 }

/-- An EXIF tag value as `get_exif_analysis` sees it: a string, raw bytes
(with the result of attempting UTF-8 decoding), or a number. -/
inductive ExifVal where
  | str (s : String)
  | bytes (decoded : Option String)
  | num (n : Int)
deriving DecidableEq

/-- The subset of the PIL `ExifTags.TAGS` table covering every tag name
the analyzer's categorization mentions, plus representative others; tags
outside the table keep their numeric id as their name. -/
def TAGS (tag_id : Nat) : Option String :=
  if tag_id = 271 then some "Make"
  else if tag_id = 272 then some "Model"
  else if tag_id = 305 then some "Software"
  else if tag_id = 33434 then some "ExposureTime"
  else if tag_id = 33437 then some "FNumber"
  else if tag_id = 34855 then some "ISOSpeedRatings"
  else if tag_id = 37386 then some "FocalLength"
  else if tag_id = 306 then some "DateTime"
  else if tag_id = 274 then some "Orientation"
  else none

/-- The three category dicts built by `get_exif_analysis`; keys are tag
names (or raw numeric ids where the tag table has no name). -/
structure ExifAnalysis where
  camera_info : List ((String ⊕ Nat) × ExifVal)
  technical_settings : List ((String ⊕ Nat) × ExifVal)
  other_data : List ((String ⊕ Nat) × ExifVal)
deriving DecidableEq

/-- One categorization step of the loop in `get_exif_analysis`
(src/services/analysis.py lines 30–46): undecodable bytes are skipped,
decoded bytes become strings, and the entry goes to the category its tag
name selects (a numeric tag name never equals the listed strings). -/
def exifStep (analysis : ExifAnalysis) (p : Nat × ExifVal) : ExifAnalysis :=
  let tag_name : String ⊕ Nat := match TAGS p.1 with
    | some n => .inl n
    | none => .inr p.1
  match p.2 with
  | .bytes none => analysis
  | v0 =>
      let value : ExifVal := match v0 with
        | .bytes (some s) => .str s
        | w => w
      match tag_name with
      | .inl n =>
          if n = "Make" ∨ n = "Model" ∨ n = "Software" then
            { analysis with camera_info := analysis.camera_info ++ [(tag_name, value)] }
          else if n = "FNumber" ∨ n = "ExposureTime" ∨ n = "ISOSpeedRatings" ∨
              n = "FocalLength" then
            { analysis with technical_settings :=
                analysis.technical_settings ++ [(tag_name, value)] }
          else
            { analysis with other_data := analysis.other_data ++ [(tag_name, value)] }
      | .inr _ =>
          { analysis with other_data := analysis.other_data ++ [(tag_name, value)] }

/-- Source `PhotoAnalyzer.get_exif_analysis` (src/services/analysis.py
lines 14–51) on an image whose EXIF data is readable, the image given by
its EXIF entries. -/
def get_exif_analysis (exifdata : List (Nat × ExifVal)) : ExifAnalysis :=
  exifdata.foldl exifStep ⟨[], [], []⟩

/-- Python `str(value)` for the modelled EXIF values. -/
def exifValStr : ExifVal → String
  | .str s => s
  | .bytes (some s) => s
  | .bytes none => ""
  | .num n => toString n

/-- Python `settings.get(key, 'Not available')` over the
`technical_settings` dict, rendered into the f-string. -/
def settingsGet (settings : List ((String ⊕ Nat) × ExifVal)) (k : String) :
    String :=
  match settings.find? (fun p => decide (p.1 = Sum.inl k)) with
  | some p => exifValStr p.2
  | none => "Not available"

/-- The EXIF context block `analyze_photo` builds and appends to the
system prompt (src/services/analysis.py lines 67–78). -/
def exif_context (exifdata : List (Nat × ExifVal)) : String :=
  let settings := (get_exif_analysis exifdata).technical_settings
  "\n\n**Available EXIF Data:**\n- Aperture (f-stop): " ++
    settingsGet settings "FNumber" ++
  "\n- Shutter Speed: " ++ settingsGet settings "ExposureTime" ++
  "\n- ISO: " ++ settingsGet settings "ISOSpeedRatings" ++
  "\n- Focal Length: " ++ settingsGet settings "FocalLength" ++ "\n"

/-- Whether an entry of the raw EXIF list lands in `technical_settings`,
and as what: its value decodes and its tag name is one of the four
camera-setting tags. -/
def techProj (p : Nat × ExifVal) : Option ((String ⊕ Nat) × ExifVal) :=
  match p.2 with
  | .bytes none => none
  | v0 =>
      let value : ExifVal := match v0 with
        | .bytes (some s) => .str s
        | w => w
      match TAGS p.1 with
      | some n =>
          if n = "FNumber" ∨ n = "ExposureTime" ∨ n = "ISOSpeedRatings" ∨
              n = "FocalLength" then some (Sum.inl n, value)
          else none
      | none => none

/-- The response model of the /image/edit endpoint. -/
structure ImageEditResponse where
  success : Bool
  image_path : Option String
  text_response : Option String
  error : Option String
  metrics : Option CompareResult

/-- The dict `generate_image` returns: text part and saved image path. -/
structure GenImageResult where
  text : Option String
  image_path : Option String

/-- The inputs of one /image/edit request together with the outcomes of
the vendor calls it makes: the instruction-generation LLM call, the
image-generation call, the filesystem checks and the metric computation. -/
structure EditEnv where
  file_hash : String
  table : List AnalysisRow
  lookupFails : Bool
  image_exists : Bool
  instrResult : Except String String
  genResult : Except String GenImageResult
  output_exists : Bool
  metricsResult : Except String CompareResult
  output_filename : String

/-- Outcome of a Python block: a value, a raised `HTTPException`, or any
other raised exception with its text. -/
inductive PyOutcome (α : Type) where
  | ok (a : α)
  | httpExc (e : HTTPError)
  | pyExc (msg : String)

/-- The body of the /image/edit handler inside its outer `try`
(src/main.py lines 265–363). Python `not editing_instructions or not
editing_instructions.strip()` is the all-whitespace test. -/
def edit_image_body (env : EditEnv) : PyOutcome ImageEditResponse :=
  let cached := if env.lookupFails then none
    else get_analysis_by_hash env.table env.file_hash
  match cached with
  | none => .httpExc ⟨404, "Couldn't find analysis for the file"⟩
  | some row =>
      let pathOk : Bool := match row.image_path with
        | none => false
        | some p => p != "" && env.image_exists
      if !pathOk then
        .httpExc ⟨404, "Original image not found. Please re-upload the image."⟩
      else
        match env.instrResult with
        | .error e => .httpExc ⟨500, "Failed to generate editing instructions: " ++ e⟩
        | .ok instr =>
            if instr = "" ∨ instr.data.all (fun c => c.isWhitespace) then
              .httpExc ⟨500,
                "Failed to generate editing instructions: AI returned empty response"⟩
            else
              match env.genResult with
              | .error e => .pyExc e
              | .ok result =>
                  let metrics :=
                    if result.image_path.isSome ∧ env.output_exists then
                      match env.metricsResult with
                      | .ok m => some m
                      | .error _ => none
                    else none
                  .ok ⟨true,
                    some ("/static/generated_images/" ++ env.output_filename),
                    result.text, none, metrics⟩

/-- Source `edit_image` (src/main.py lines 262–371): re-raise
`HTTPException`, turn every other exception into a `success=False`
response carrying the exception text. -/
def edit_image (env : EditEnv) : Except HTTPError ImageEditResponse :=
  match edit_image_body env with
  | .ok r => .ok r
  | .httpExc e => .error e
  | .pyExc msg => .ok ⟨false, none, none, some msg, none⟩

/-- Source `adjust_brightness` (src/services/tools.py lines 201–218); the
PIL open-enhance-save pipeline is the argument, given as its outcome. -/
def adjust_brightness (output_path : String) (pil : Except String Unit) :
    String :=
  match pil with
  | .ok _ => "Successfully adjusted brightness and saved to " ++ output_path
  | .error e => "Error: Failed to adjust brightness. " ++ e

/-- Source `enhance_saturation` (src/services/tools.py lines 221–238). -/
def enhance_saturation (output_path : String) (pil : Except String Unit) :
    String :=
  match pil with
  | .ok _ => "Successfully enhanced saturation and saved to " ++ output_path
  | .error e => "Error: Failed to enhance saturation. " ++ e

/-- Source `apply_sharpen_filter` (src/services/tools.py lines 241–255). -/
def apply_sharpen_filter (output_path : String) (pil : Except String Unit) :
    String :=
  match pil with
  | .ok _ => "Successfully sharpened image and saved to " ++ output_path
  | .error e => "Error: Failed to sharpen image. " ++ e

/-- A sample row of the analysis table. -/
def rowW : AnalysisRow := ⟨1, "1.2.3.4", "a.jpg", "h1", "text one", none, none, 0⟩

/-- A second sample row belonging to another client. -/
def rowW2 : AnalysisRow := ⟨2, "5.6.7.8", "b.jpg", "h2", "text two", none, none, 1⟩

/-- A stored row that the /image/edit witness environment can look up. -/
def rowW3 : AnalysisRow :=
  ⟨3, "9.9.9.9", "c.jpg", "hash3", "analysis three", none, some "img.png", 2⟩

/-- An /image/edit environment where the image-generation call raises. -/
def editEnvW : EditEnv :=
  ⟨"hash3", [rowW3], false, true, .ok "brighten it", .error "boom", false,
   .error "metrics fail", "out.png"⟩

/-- A /upload request carrying a plain-text file. -/
def uploadEnvBad : UploadEnv :=
  ⟨some "text/plain", some "a.txt", [1, 2], some "7.7.7.7", "/tmp/t", 5,
   false, false, [], none, "ctx"⟩

/-- An empty server state. -/
def serverStW : ServerState := ⟨⟨0, 0, 0⟩, [], []⟩

/-- A well-formed image upload whose analysis yields two chunks. -/
def uploadEnvW : UploadEnv :=
  ⟨some "image/png", some "photo.png", [1, 2, 3], some "7.7.7.7",
   "/tmp/tmp123.png", 9, false, false, ["The photo ", "is nice."], none, "ctx"⟩

/-- The same upload but with the cache lookup raising. -/
def uploadEnvW2 : UploadEnv :=
  { uploadEnvW with lookupFails := true }

/-- The raw bytes of the witness upload that hits the cache. -/
def bytesW : List Nat := [10, 20]

/-- A stored analysis row keyed by the SHA-256 hash of those bytes. -/
def rowHit : AnalysisRow :=
  ⟨7, "7.7.7.7", "photo.png", get_content_hash bytesW, "A cached analysis.",
   none, some "static/uploaded_images/x.png", 4⟩

/-- A server state already holding that row. -/
def serverStHit : ServerState := ⟨⟨0, 0, 0⟩, [rowHit], []⟩

/-- The upload of those same bytes. -/
def uploadEnvHit : UploadEnv :=
  ⟨some "image/png", some "photo.png", bytesW, some "7.7.7.7", "/tmp/tmpA.png",
   9, false, false, [], none, "ctx"⟩

/-- Statistics of the witness original image: every heuristic saturates. -/
def statsOrigW : ImageStats := ⟨1000, 256, 128, 8, 65536, 65536, 255⟩

/-- Statistics of the witness edited image: half the Laplacian variance. -/
def statsEditW : ImageStats := ⟨500, 256, 128, 8, 65536, 65536, 255⟩

/-- A witness EXIF table: an aperture entry, a camera-make entry, an
unknown numeric tag, and a shutter-speed entry whose bytes fail to
decode. -/
def exifW : List (Nat × ExifVal) :=
  [(33437, .str "f/2.8"), (271, .str "Canon"), (99999, .num 5),
   (33434, .bytes none)]

/-! Theorems. -/

theorem string_mk_length (l : List Char) : (String.mk l).length = l.length := rfl

theorem bytesHex_length (bs : List Nat) : (bytesHex bs).length = 2 * bs.length := by
  have key : ∀ l : List Nat,
      ((l.map fun b => [hexChar (b / 16 % 16), hexChar (b % 16)]).flatten).length
        = 2 * l.length := by
    intro l
    induction l with
    | nil => simp
    | cons b t ih => simp [ih]; omega
  rw [bytesHex, string_mk_length, key]

theorem sha256Bytes_length (msg : List Nat) : (sha256Bytes msg).length = 32 := by
  simp [sha256Bytes, wordBytesBE]

theorem md5Bytes_length (msg : List Nat) : (md5Bytes msg).length = 16 := by
  simp [md5Bytes, wordBytesLE]

set_option maxRecDepth 8000 in
/-- C1, counterexample: on the empty upload the hash the
`AnalysisDatabase` helpers compute differs from the SHA-256 content hash,
so not every content-hash computation in the system produces the SHA-256
digest. -/
theorem db_helper_hash_differs_from_sha256 :
    AnalysisDatabase.get_content_hash [] ≠ get_content_hash [] ∧
    AnalysisDatabase.get_file_hash [] ≠ get_content_hash [] := by
  constructor <;> decide

/-- C1 (amended): the cache key and deduplication hash of an upload is the
SHA-256 hex digest of the raw bytes, a 64-character string, and the helper
in utils agrees with it; but the `AnalysisDatabase` helper methods
`get_file_hash` and `get_content_hash` compute the MD5 hex digest
(32 characters) of the content instead of SHA-256. -/
theorem content_hash_is_sha256_but_db_helpers_are_md5 (content : List Nat) :
    get_content_hash content = bytesHex (sha256Bytes content) ∧
    helpers.get_content_hash content = get_content_hash content ∧
    (get_content_hash content).length = 64 ∧
    AnalysisDatabase.get_content_hash content = bytesHex (md5Bytes content) ∧
    AnalysisDatabase.get_file_hash content = AnalysisDatabase.get_content_hash content ∧
    (AnalysisDatabase.get_content_hash content).length = 32 := by
  refine ⟨rfl, rfl, ?_, rfl, rfl, ?_⟩
  · rw [show get_content_hash content = bytesHex (sha256Bytes content) from rfl,
      bytesHex_length, sha256Bytes_length]
  · rw [show AnalysisDatabase.get_content_hash content
        = bytesHex (md5Bytes content) from rfl, bytesHex_length, md5Bytes_length]

/-- C10: `delete_analysis` removes only rows matching both the id and the
ip address, returns true exactly when such a row existed, and keeps every
other row (the remaining table is a sublist of the original, so order and
multiplicity of untouched rows are preserved). -/
theorem delete_analysis_only_own_rows (tbl : List AnalysisRow)
    (analysis_id : Nat) (ip_address : String) :
    ((delete_analysis tbl analysis_id ip_address).2 = true ↔
      ∃ r ∈ tbl, r.id = analysis_id ∧ r.ip_address = ip_address) ∧
    (∀ r ∈ tbl, r.id ≠ analysis_id ∨ r.ip_address ≠ ip_address →
      r ∈ (delete_analysis tbl analysis_id ip_address).1) ∧
    (∀ r ∈ (delete_analysis tbl analysis_id ip_address).1,
      r ∈ tbl ∧ ¬(r.id = analysis_id ∧ r.ip_address = ip_address)) ∧
    List.Sublist (delete_analysis tbl analysis_id ip_address).1 tbl := by
  refine ⟨?_, ?_, ?_, List.filter_sublist _⟩
  · simp [delete_analysis, List.countP_pos_iff]
  · intro r hr hne
    simp only [delete_analysis, List.mem_filter, Bool.not_eq_eq_eq_not,
      Bool.not_true, Bool.and_eq_false_imp, beq_iff_eq, beq_eq_false_iff_ne]
    refine ⟨hr, fun h1 => ?_⟩
    rcases hne with h | h
    · exact absurd h1 h
    · exact h
  · intro r hr
    revert hr
    simp only [delete_analysis, List.mem_filter, Bool.not_eq_eq_eq_not,
      Bool.not_true, Bool.and_eq_false_imp, beq_iff_eq, beq_eq_false_iff_ne]
    tauto

/-- C10, witness: deleting id 1 for the first client removes exactly that
client's row and reports success. -/
theorem delete_analysis_only_own_rows_witness :
    (delete_analysis [rowW, rowW2] 1 "1.2.3.4").2 = true ∧
    (delete_analysis [rowW, rowW2] 1 "1.2.3.4").1 = [rowW2] :=
  ⟨(delete_analysis_only_own_rows [rowW, rowW2] 1 "1.2.3.4").1.mpr
      ⟨rowW, by simp, rfl, rfl⟩,
   by decide⟩

/-- C7: the /image/edit endpoint turns every raised exception other than
an `HTTPException` into an `ImageEditResponse` with `success=False` and
`error` set to the exception text instead of propagating it, and the three
editing tools answer any failure with a string beginning with "Error:". -/
theorem edit_errors_returned_not_raised (env : EditEnv) (outp err : String) :
    (∀ msg, edit_image_body env = .pyExc msg →
      edit_image env = .ok ⟨false, none, none, some msg, none⟩) ∧
    adjust_brightness outp (.error err) =
      "Error:" ++ (" Failed to adjust brightness. " ++ err) ∧
    enhance_saturation outp (.error err) =
      "Error:" ++ (" Failed to enhance saturation. " ++ err) ∧
    apply_sharpen_filter outp (.error err) =
      "Error:" ++ (" Failed to sharpen image. " ++ err) := by
  refine ⟨?_, ?_, ?_, ?_⟩
  · intro msg h
    simp [edit_image, h]
  · rw [adjust_brightness, ← String.append_assoc]
    exact congrArg (· ++ err) rfl
  · rw [enhance_saturation, ← String.append_assoc]
    exact congrArg (· ++ err) rfl
  · rw [apply_sharpen_filter, ← String.append_assoc]
    exact congrArg (· ++ err) rfl

/-- C7, witness: with a failing image-generation call the endpoint answers
`success=False` carrying the exception text, and a failing brightness tool
answers an "Error:" string. -/
theorem edit_errors_returned_not_raised_witness :
    edit_image_body editEnvW = .pyExc "boom" ∧
    edit_image editEnvW = .ok ⟨false, none, none, some "boom", none⟩ ∧
    adjust_brightness "o.png" (.error "disk full") =
      "Error:" ++ (" Failed to adjust brightness. " ++ "disk full") :=
  ⟨rfl,
   (edit_errors_returned_not_raised editEnvW "o.png" "disk full").1 "boom" rfl,
   (edit_errors_returned_not_raised editEnvW "o.png" "disk full").2.1⟩

/-- C8: a missing or non-image content type makes /upload answer HTTP 400
with the server state untouched and an empty action trace, so the body is
never read, no hash is computed, no counter moves, no file is written and
no row is stored. -/
theorem upload_rejected_without_side_effects (env : UploadEnv)
    (st : ServerState) (h : contentTypeOk env.content_type = false) :
    upload_and_analyze env st =
      (.error ⟨400, "File must be an image"⟩, st, []) := by
  simp [upload_and_analyze, h]

/-- C8, witness: the plain-text upload is rejected and nothing changes. -/
theorem upload_rejected_without_side_effects_witness :
    contentTypeOk uploadEnvBad.content_type = false ∧
    upload_and_analyze uploadEnvBad serverStW =
      (.error ⟨400, "File must be an image"⟩, serverStW, []) :=
  ⟨by decide,
   upload_rejected_without_side_effects uploadEnvBad serverStW (by decide)⟩

/-- C9: every content-type-valid /upload request increments `uploads` once
and then exactly one of `hits` or `misses` (a failing database lookup
counts as a miss), so `uploads = hits + misses` is preserved, and under
that invariant the /cache/stats hit rate is the hit fraction of all
counted uploads. -/
theorem upload_counts_hits_plus_misses (env : UploadEnv) (st : ServerState)
    (h : contentTypeOk env.content_type = true) :
    ((upload_and_analyze env st).2.1.stats.uploads = st.stats.uploads + 1) ∧
    (((upload_and_analyze env st).2.1.stats.hits = st.stats.hits + 1 ∧
      (upload_and_analyze env st).2.1.stats.misses = st.stats.misses) ∨
     ((upload_and_analyze env st).2.1.stats.misses = st.stats.misses + 1 ∧
      (upload_and_analyze env st).2.1.stats.hits = st.stats.hits)) ∧
    (env.lookupFails = true →
      (upload_and_analyze env st).2.1.stats.misses = st.stats.misses + 1) ∧
    (st.stats.uploads = st.stats.hits + st.stats.misses →
      (upload_and_analyze env st).2.1.stats.uploads =
        (upload_and_analyze env st).2.1.stats.hits +
          (upload_and_analyze env st).2.1.stats.misses ∧
      (get_cache_stats (upload_and_analyze env st).2.1).hit_rate_percent =
        round2 (((upload_and_analyze env st).2.1.stats.hits : ℚ) /
          ((upload_and_analyze env st).2.1.stats.uploads : ℚ) * 100)) := by
  have hstats : (upload_and_analyze env st).2.1.stats =
      (if (if env.lookupFails then none
            else get_analysis_by_hash st.table
              (get_content_hash env.file_content)).isSome then
        (⟨st.stats.hits + 1, st.stats.misses, st.stats.uploads + 1⟩ : CacheStats)
      else ⟨st.stats.hits, st.stats.misses + 1, st.stats.uploads + 1⟩) := by
    simp only [upload_and_analyze, h, if_true]
    cases hc : (if env.lookupFails then none
        else get_analysis_by_hash st.table (get_content_hash env.file_content)) with
    | none => simp [upload_body, hc]
    | some row => simp [upload_body, hc]
  cases hc : (if env.lookupFails then none
      else get_analysis_by_hash st.table (get_content_hash env.file_content)) with
  | none =>
      rw [hc] at hstats
      simp only [Option.isSome_none, Bool.false_eq_true, if_false] at hstats
      refine ⟨by simp [hstats], Or.inr ⟨by simp [hstats], by simp [hstats]⟩,
        fun _ => by simp [hstats], fun hinv => ⟨?_, ?_⟩⟩
      · simp [hstats]; omega
      · simp only [get_cache_stats, hstats]
        rw [if_pos (by omega),
          show st.stats.hits + (st.stats.misses + 1) = st.stats.uploads + 1 from
            by omega]
  | some row =>
      rw [hc] at hstats
      simp only [Option.isSome_some, if_true] at hstats
      refine ⟨by simp [hstats], Or.inl ⟨by simp [hstats], by simp [hstats]⟩,
        fun hl => ?_, fun hinv => ⟨?_, ?_⟩⟩
      · rw [hl] at hc
        simp at hc
      · simp [hstats]; omega
      · simp only [get_cache_stats, hstats]
        rw [if_pos (by omega),
          show st.stats.hits + 1 + st.stats.misses = st.stats.uploads + 1 from
            by omega]

/-- C9, witness: on an empty state the upload counts one upload and one
miss (also when the lookup raises), and the reported hit rate is the hit
fraction of the counted uploads. -/
theorem upload_counts_hits_plus_misses_witness :
    contentTypeOk uploadEnvW.content_type = true ∧
    (upload_and_analyze uploadEnvW serverStW).2.1.stats.uploads =
      serverStW.stats.uploads + 1 ∧
    (upload_and_analyze uploadEnvW2 serverStW).2.1.stats.misses =
      serverStW.stats.misses + 1 ∧
    (get_cache_stats (upload_and_analyze uploadEnvW serverStW).2.1).hit_rate_percent =
      round2 (((upload_and_analyze uploadEnvW serverStW).2.1.stats.hits : ℚ) /
        ((upload_and_analyze uploadEnvW serverStW).2.1.stats.uploads : ℚ) * 100) :=
  ⟨by decide,
   (upload_counts_hits_plus_misses uploadEnvW serverStW (by decide)).1,
   (upload_counts_hits_plus_misses uploadEnvW2 serverStW (by decide)).2.2.1 rfl,
   ((upload_counts_hits_plus_misses uploadEnvW serverStW (by decide)).2.2.2 rfl).2⟩

/-- C2: when the cache lookup succeeds and finds a record for the upload's
content hash, the /upload stream replays the stored record's analysis text
(verbatim as a single chunk when it has no JSON marker) and the analyzer
is never invoked; the analyzer runs exactly when the lookup returns no
record. -/
theorem upload_cache_hit_skips_llm (env : UploadEnv) (st : ServerState)
    (hct : contentTypeOk env.content_type = true)
    (hlf : env.lookupFails = false) :
    (∀ row, get_analysis_by_hash st.table (get_content_hash env.file_content)
        = some row →
      (upload_and_analyze env st).1 =
        .ok (headerEvents (get_content_hash env.file_content) env.temp_path ++
          cachedEvents row.analysis_text) ∧
      ReqAction.invokeAnalyzer ∉ (upload_and_analyze env st).2.2) ∧
    (ReqAction.invokeAnalyzer ∈ (upload_and_analyze env st).2.2 ↔
      get_analysis_by_hash st.table (get_content_hash env.file_content) = none) ∧
    (∀ t : String, findSub JSON_MARKER.data t.data = none →
      cachedChunkEvents t = [sseEvent (typeContentJson "chunk" t)]) := by
  refine ⟨?_, ?_, ?_⟩
  · intro row hrow
    have hcached : (if env.lookupFails then none
        else get_analysis_by_hash st.table (get_content_hash env.file_content))
          = some row := by
      simp [hlf, hrow]
    constructor
    · simp [upload_and_analyze, hct, upload_body, hcached]
    · simp only [upload_and_analyze, hct, if_true]
      simp only [upload_body, hcached]
      by_cases hw : st.files.contains ("static/uploaded_images/" ++
          get_content_hash env.file_content ++
          (match env.filename with
           | some fn => if fn = "" then ".jpg" else splitextExt fn
           | none => ".jpg")) = true
      · simp [hw]
      · simp [hw]
  · cases hc : get_analysis_by_hash st.table (get_content_hash env.file_content) with
    | none =>
        have hcached : (if env.lookupFails then none
            else get_analysis_by_hash st.table (get_content_hash env.file_content))
              = none := by simp [hlf, hc]
        simp only [upload_and_analyze, hct, if_true, upload_body, hcached]
        simp
    | some row =>
        have hcached : (if env.lookupFails then none
            else get_analysis_by_hash st.table (get_content_hash env.file_content))
              = some row := by simp [hlf, hc]
        simp only [upload_and_analyze, hct, if_true, upload_body, hcached]
        constructor
        · intro hmem
          by_cases hw : st.files.contains ("static/uploaded_images/" ++
              get_content_hash env.file_content ++
              (match env.filename with
               | some fn => if fn = "" then ".jpg" else splitextExt fn
               | none => ".jpg")) = true
          · simp [hw] at hmem
          · simp [hw] at hmem
        · intro hnone
          exact absurd hnone (by simp)
  · intro t ht
    simp [cachedChunkEvents, splitOnce, ht]

set_option maxRecDepth 8000 in
/-- C2, witness: re-uploading cached bytes replays the stored analysis and
never reaches the analyzer. -/
theorem upload_cache_hit_skips_llm_witness :
    get_analysis_by_hash serverStHit.table
      (get_content_hash uploadEnvHit.file_content) = some rowHit ∧
    (upload_and_analyze uploadEnvHit serverStHit).1 =
      .ok (headerEvents (get_content_hash uploadEnvHit.file_content)
        uploadEnvHit.temp_path ++ cachedEvents rowHit.analysis_text) ∧
    ReqAction.invokeAnalyzer ∉ (upload_and_analyze uploadEnvHit serverStHit).2.2 := by
  have hlook : get_analysis_by_hash serverStHit.table
      (get_content_hash uploadEnvHit.file_content) = some rowHit := by decide
  exact ⟨hlook,
    ((upload_cache_hit_skips_llm uploadEnvHit serverStHit (by decide) rfl).1
      rowHit hlook).1,
    ((upload_cache_hit_skips_llm uploadEnvHit serverStHit (by decide) rfl).1
      rowHit hlook).2⟩

/-- C3: on a cache miss the /upload response is the header lines, the
analyzing notice, one event per analyzer chunk in arrival order, then the
terminal done event; each chunk is framed as a data line holding the
two-key JSON object with the chunk text, followed by a blank line, and the
stream's last event is the done event. -/
theorem upload_stream_forwards_chunks (env : UploadEnv) (st : ServerState)
    (hct : contentTypeOk env.content_type = true)
    (hmiss : (if env.lookupFails then none
      else get_analysis_by_hash st.table (get_content_hash env.file_content))
        = none) :
    (upload_and_analyze env st).1 =
      .ok (headerEvents (get_content_hash env.file_content) env.temp_path ++
        newAnalysisEvents env.chunks env.streamErr) ∧
    newAnalysisEvents env.chunks env.streamErr =
      [sseEvent (typeContentJson "analyzing" "Analyzing new image...")] ++
      env.chunks.map (fun c => sseEvent (typeContentJson "chunk" c)) ++
      (match env.streamErr with
       | some e => [sseEvent (typeContentJson "error" e)]
       | none => []) ++
      [sseEvent doneJson] ∧
    (∀ c : String, sseEvent (typeContentJson "chunk" c) =
      "data: " ++ typeContentJson "chunk" c ++ "\n\n") ∧
    (∀ c : String, typeContentJson "chunk" c =
      "\x7b\"type\": \"chunk\", \"content\": " ++ jsonStr c ++ "\x7d") ∧
    (newAnalysisEvents env.chunks env.streamErr).getLast? =
      some (sseEvent doneJson) := by
  refine ⟨?_, rfl, fun c => rfl, fun c => ?_, ?_⟩
  · simp [upload_and_analyze, hct, upload_body, hmiss]
  · exact congrArg (fun s => s ++ jsonStr c ++ "\x7d") rfl
  · show (_ ++ [sseEvent doneJson]).getLast? = some (sseEvent doneJson)
    exact List.getLast?_concat _

set_option maxRecDepth 8000 in
/-- C3, witness: on the empty state the two-chunk upload streams its
chunks and ends with the done event. -/
theorem upload_stream_forwards_chunks_witness :
    (if uploadEnvW.lookupFails then none
     else get_analysis_by_hash serverStW.table
       (get_content_hash uploadEnvW.file_content)) = none ∧
    (upload_and_analyze uploadEnvW serverStW).1 =
      .ok (headerEvents (get_content_hash uploadEnvW.file_content)
        uploadEnvW.temp_path ++
        newAnalysisEvents uploadEnvW.chunks uploadEnvW.streamErr) ∧
    (newAnalysisEvents uploadEnvW.chunks uploadEnvW.streamErr).getLast? =
      some (sseEvent doneJson) :=
  ⟨rfl,
   (upload_stream_forwards_chunks uploadEnvW serverStW (by decide) rfl).1,
   (upload_stream_forwards_chunks uploadEnvW serverStW (by decide) rfl).2.2.2.2⟩

theorem round2_intCast (n : ℤ) : round2 ((n : ℚ)) = n := by
  have hy : ((n : ℚ)) * 100 = ((n * 100 : ℤ) : ℚ) := by push_cast; ring
  simp only [round2, hy, Int.floor_intCast, sub_self]
  push_cast
  rw [if_pos (by norm_num : (0 : ℚ) < 1 / 2)]
  exact mul_div_cancel_right₀ _ (by norm_num)

theorem round2_zero : round2 0 = 0 := by
  simpa using round2_intCast 0

theorem round2_hundred : round2 (100 : ℚ) = 100 := by
  rw [show (100 : ℚ) = ((100 : ℤ) : ℚ) by norm_num, round2_intCast]

theorem round2_mem (x : ℚ) (hx0 : 0 ≤ x) (hx1 : x ≤ 100) :
    0 ≤ round2 x ∧ round2 x ≤ 100 := by
  have hy0 : (0 : ℚ) ≤ x * 100 := by linarith
  have hy1 : x * 100 ≤ 10000 := by linarith
  have hfl : ((⌊x * 100⌋ : ℚ)) ≤ x * 100 := Int.floor_le _
  have hf0 : (0 : ℤ) ≤ ⌊x * 100⌋ := Int.le_floor.mpr (by exact_mod_cast hy0)
  have hf0q : (0 : ℚ) ≤ (⌊x * 100⌋ : ℚ) := by exact_mod_cast hf0
  have hf1 : (⌊x * 100⌋ : ℚ) ≤ 10000 := le_trans hfl hy1
  simp only [round2]
  split_ifs with hc1 hc2 hc3
  · constructor
    · exact div_nonneg hf0q (by norm_num)
    · rw [div_le_iff₀ (by norm_num : (0 : ℚ) < 100)]
      linarith
  · have hfi : (⌊x * 100⌋ : ℚ) < 10000 := by linarith
    have hfz : ⌊x * 100⌋ < 10000 := by exact_mod_cast hfi
    have hfz1 : ((⌊x * 100⌋ + 1 : ℤ) : ℚ) ≤ 10000 := by exact_mod_cast hfz
    constructor
    · apply div_nonneg _ (by norm_num : (0 : ℚ) ≤ 100)
      push_cast
      linarith
    · rw [div_le_iff₀ (by norm_num : (0 : ℚ) < 100)]
      push_cast at hfz1 ⊢
      linarith
  · constructor
    · exact div_nonneg hf0q (by norm_num)
    · rw [div_le_iff₀ (by norm_num : (0 : ℚ) < 100)]
      linarith
  · have hr : x * 100 - (⌊x * 100⌋ : ℚ) = 1 / 2 :=
      le_antisymm (not_lt.mp hc2) (not_lt.mp hc1)
    have hfi : (⌊x * 100⌋ : ℚ) < 10000 := by linarith
    have hfz : ⌊x * 100⌋ < 10000 := by exact_mod_cast hfi
    have hfz1 : ((⌊x * 100⌋ + 1 : ℤ) : ℚ) ≤ 10000 := by exact_mod_cast hfz
    constructor
    · apply div_nonneg _ (by norm_num : (0 : ℚ) ≤ 100)
      push_cast
      linarith
    · rw [div_le_iff₀ (by norm_num : (0 : ℚ) < 100)]
      push_cast at hfz1 ⊢
      linarith

theorem calculate_sharpness_mem (s : ImageStats) (h : 0 ≤ s.lapVar) :
    0 ≤ calculate_sharpness s ∧ calculate_sharpness s ≤ 100 :=
  ⟨le_min (by norm_num) (div_nonneg h (by norm_num)), min_le_left _ _⟩

theorem calculate_dynamic_range_mem (s : ImageStats) (h : 0 ≤ s.stdDev) :
    0 ≤ calculate_dynamic_range s ∧ calculate_dynamic_range s ≤ 100 := by
  simp only [calculate_dynamic_range]
  refine ⟨le_min (by norm_num) ?_, min_le_left _ _⟩
  have a1 : 0 ≤ ((s.usedRange : ℚ) / 256) * 100 := by positivity
  have a2 : 0 ≤ (s.stdDev / 128) * 100 :=
    mul_nonneg (div_nonneg h (by norm_num)) (by norm_num)
  linarith

theorem calculate_color_richness_mem (s : ImageStats) (h3 : 0 ≤ s.avgEntropy)
    (h4 : 0 ≤ s.satMean) :
    0 ≤ calculate_color_richness s ∧ calculate_color_richness s ≤ 100 := by
  simp only [calculate_color_richness]
  refine ⟨le_min (by norm_num) ?_, min_le_left _ _⟩
  have a1 : 0 ≤ s.avgEntropy / 8 * 40 :=
    mul_nonneg (div_nonneg h3 (by norm_num)) (by norm_num)
  have a2 : 0 ≤ ((s.uniqueColors : ℚ) / (s.maxPossible : ℚ)) * 100 := by positivity
  have a3 : 0 ≤ s.satMean / 255 * 100 :=
    mul_nonneg (div_nonneg h4 (by norm_num)) (by norm_num)
  linarith

/-- C4: comparing two readable images yields the original, edited and
changes dicts, where each per-key delta is the rounded difference of the
two scores and each percent delta is the rounded relative difference, 0
when the original score is 0 (the zero guard prevents any division by
zero). -/
theorem compare_metrics_deltas (so se : ImageStats) :
    ∃ res, compare_image_metrics (.ok so) (.ok se) = .ok res ∧
      res.original = calculate_image_metrics so ∧
      res.edited = calculate_image_metrics se ∧
      ∀ k ∈ ["sharpness", "dynamic_range", "color_richness", "overall_quality"],
        metricLookup res.changes k =
          round2 (metricLookup res.edited k - metricLookup res.original k) ∧
        (metricLookup res.original k ≠ 0 →
          metricLookup res.changes (k ++ "_percent") =
            round2 ((metricLookup res.edited k - metricLookup res.original k) /
              metricLookup res.original k * 100)) ∧
        (metricLookup res.original k = 0 →
          metricLookup res.changes (k ++ "_percent") = 0) := by
  refine ⟨_, rfl, rfl, rfl, ?_⟩
  intro k hk
  simp only [List.mem_cons, List.not_mem_nil, or_false] at hk
  rcases hk with rfl | rfl | rfl | rfl <;>
    refine ⟨?_, fun h => ?_, fun h => ?_⟩ <;>
    simp_all [compare_image_metrics, calculate_image_metrics_checked,
      calculate_image_metrics, metricLookup, round2_zero]

/-- C4, witness: the sharpness delta and percent delta of the two witness
images follow the rounded-difference formulas. -/
theorem compare_metrics_deltas_witness :
    ∃ res, compare_image_metrics (.ok statsOrigW) (.ok statsEditW) = .ok res ∧
      metricLookup res.original "sharpness" ≠ 0 ∧
      metricLookup res.changes "sharpness" =
        round2 (metricLookup res.edited "sharpness" -
          metricLookup res.original "sharpness") ∧
      metricLookup res.changes ("sharpness" ++ "_percent") =
        round2 ((metricLookup res.edited "sharpness" -
          metricLookup res.original "sharpness") /
            metricLookup res.original "sharpness" * 100) := by
  obtain ⟨res, h1, h2, h3, h4⟩ := compare_metrics_deltas statsOrigW statsEditW
  have hk : "sharpness" ∈
      ["sharpness", "dynamic_range", "color_richness", "overall_quality"] := by
    simp
  have hne : metricLookup res.original "sharpness" ≠ 0 := by
    rw [h2]
    simp only [calculate_image_metrics, metricLookup, statsOrigW,
      calculate_sharpness]
    norm_num [round2_hundred]
  exact ⟨res, h1, hne, (h4 "sharpness" hk).1, (h4 "sharpness" hk).2.1 hne⟩

/-- C5: every score in the metric dict of an image lies in [0, 100] (the
statistics are nonnegative as variances, entropies, counts and means of
nonnegative data), the overall quality is the rounded weighted sum
0.4/0.35/0.25 of the three rounded scores, and that weighted combination
stays in [0, 100] whenever its three inputs do. -/
theorem metrics_scores_in_range (s : ImageStats) (h1 : 0 ≤ s.lapVar)
    (h2 : 0 ≤ s.stdDev) (h3 : 0 ≤ s.avgEntropy) (h4 : 0 ≤ s.satMean) :
    (∀ p ∈ calculate_image_metrics s, 0 ≤ p.2 ∧ p.2 ≤ 100) ∧
    metricLookup (calculate_image_metrics s) "overall_quality" =
      round2 (0.4 * metricLookup (calculate_image_metrics s) "sharpness" +
        0.35 * metricLookup (calculate_image_metrics s) "dynamic_range" +
        0.25 * metricLookup (calculate_image_metrics s) "color_richness") ∧
    (∀ sh dr cr : ℚ, 0 ≤ sh → sh ≤ 100 → 0 ≤ dr → dr ≤ 100 → 0 ≤ cr →
      cr ≤ 100 → 0 ≤ calculate_overall_quality sh dr cr ∧
        calculate_overall_quality sh dr cr ≤ 100) := by
  have hs := calculate_sharpness_mem s h1
  have hd := calculate_dynamic_range_mem s h2
  have hc := calculate_color_richness_mem s h3 h4
  have hsR := round2_mem _ hs.1 hs.2
  have hdR := round2_mem _ hd.1 hd.2
  have hcR := round2_mem _ hc.1 hc.2
  have hoverall : ∀ sh dr cr : ℚ, 0 ≤ sh → sh ≤ 100 → 0 ≤ dr → dr ≤ 100 →
      0 ≤ cr → cr ≤ 100 → 0 ≤ calculate_overall_quality sh dr cr ∧
        calculate_overall_quality sh dr cr ≤ 100 := by
    intro sh dr cr a1 a2 b1 b2 c1 c2
    simp only [calculate_overall_quality]
    exact round2_mem _ (by linarith) (by linarith)
  refine ⟨?_, ?_, hoverall⟩
  · intro p hp
    simp only [calculate_image_metrics, List.mem_cons, List.not_mem_nil,
      or_false] at hp
    rcases hp with rfl | rfl | rfl | rfl
    · exact hsR
    · exact hdR
    · exact hcR
    · exact hoverall _ _ _ hsR.1 hsR.2 hdR.1 hdR.2 hcR.1 hcR.2
  · simp [calculate_image_metrics, metricLookup, calculate_overall_quality]
    try exact congrArg round2 (by ring)

/-- C5, witness: the witness image's statistics are nonnegative and all
its metric scores land in [0, 100]. -/
theorem metrics_scores_in_range_witness :
    (0 : ℚ) ≤ statsOrigW.lapVar ∧ (0 : ℚ) ≤ statsOrigW.stdDev ∧
    (0 : ℚ) ≤ statsOrigW.avgEntropy ∧ (0 : ℚ) ≤ statsOrigW.satMean ∧
    (∀ p ∈ calculate_image_metrics statsOrigW, 0 ≤ p.2 ∧ p.2 ≤ 100) :=
  ⟨by norm_num [statsOrigW], by norm_num [statsOrigW], by norm_num [statsOrigW],
   by norm_num [statsOrigW],
   (metrics_scores_in_range statsOrigW (by norm_num [statsOrigW])
     (by norm_num [statsOrigW]) (by norm_num [statsOrigW])
     (by norm_num [statsOrigW])).1⟩

theorem exifStep_technical (acc : ExifAnalysis) (p : Nat × ExifVal) :
    (exifStep acc p).technical_settings =
      acc.technical_settings ++ (techProj p).toList := by
  rcases p with ⟨t, v⟩
  cases htag : TAGS t with
  | none =>
      cases v with
      | str s' => simp [exifStep, techProj, htag]
      | bytes dec => cases dec <;> simp [exifStep, techProj, htag]
      | num m => simp [exifStep, techProj, htag]
  | some n =>
      by_cases ha : n = "Make" ∨ n = "Model" ∨ n = "Software"
      · by_cases hb : n = "FNumber" ∨ n = "ExposureTime" ∨
            n = "ISOSpeedRatings" ∨ n = "FocalLength"
        · rcases ha with rfl | rfl | rfl <;> simp at hb
        · cases v with
          | str s' => simp [exifStep, techProj, htag, ha, hb]
          | bytes dec => cases dec <;> simp [exifStep, techProj, htag, ha, hb]
          | num m => simp [exifStep, techProj, htag, ha, hb]
      · by_cases hb : n = "FNumber" ∨ n = "ExposureTime" ∨
            n = "ISOSpeedRatings" ∨ n = "FocalLength"
        all_goals
          cases v with
          | str s' => simp [exifStep, techProj, htag, ha, hb]
          | bytes dec => cases dec <;> simp [exifStep, techProj, htag, ha, hb]
          | num m => simp [exifStep, techProj, htag, ha, hb]

theorem exif_fold_technical (d : List (Nat × ExifVal)) :
    ∀ acc : ExifAnalysis, (d.foldl exifStep acc).technical_settings =
      acc.technical_settings ++ d.filterMap techProj := by
  induction d with
  | nil => intro acc; simp
  | cons p t ih =>
      intro acc
      rw [List.foldl_cons, ih, exifStep_technical, List.filterMap_cons]
      cases htp : techProj p <;> simp [htp]

/-- C6: an EXIF entry lands in the technical-settings category exactly
when its (decoded) tag name is FNumber, ExposureTime, ISOSpeedRatings or
FocalLength; the context sent to the LLM reports exactly those four camera
settings, and any setting with no entry renders as "Not available". -/
theorem exif_four_settings (d : List (Nat × ExifVal)) :
    (get_exif_analysis d).technical_settings = d.filterMap techProj ∧
    exif_context d =
      "\n\n**Available EXIF Data:**\n- Aperture (f-stop): " ++
        settingsGet ((get_exif_analysis d).technical_settings) "FNumber" ++
      "\n- Shutter Speed: " ++
        settingsGet ((get_exif_analysis d).technical_settings) "ExposureTime" ++
      "\n- ISO: " ++
        settingsGet ((get_exif_analysis d).technical_settings) "ISOSpeedRatings" ++
      "\n- Focal Length: " ++
        settingsGet ((get_exif_analysis d).technical_settings) "FocalLength" ++
      "\n" ∧
    (∀ (ts : List ((String ⊕ Nat) × ExifVal)) (k : String),
      (∀ p ∈ ts, p.1 ≠ Sum.inl k) → settingsGet ts k = "Not available") := by
  refine ⟨by simpa using exif_fold_technical d ⟨[], [], []⟩, rfl, ?_⟩
  intro ts k hnone
  simp only [settingsGet]
  cases hf : ts.find? (fun p => decide (p.1 = Sum.inl k)) with
  | none => rfl
  | some q =>
      have hq : q ∈ ts := List.mem_of_find?_eq_some hf
      have hdq := @List.find?_some _
        (fun p : (String ⊕ Nat) × ExifVal => decide (p.1 = Sum.inl k)) q ts hf
      exact absurd (of_decide_eq_true hdq) (hnone q hq)

/-- C6, witness: only the aperture entry reaches technical_settings, and
the missing shutter speed renders as "Not available". -/
theorem exif_four_settings_witness :
    (get_exif_analysis exifW).technical_settings = exifW.filterMap techProj ∧
    (get_exif_analysis exifW).technical_settings =
      [(Sum.inl "FNumber", ExifVal.str "f/2.8")] ∧
    settingsGet ((get_exif_analysis exifW).technical_settings) "ExposureTime" =
      "Not available" :=
  ⟨(exif_four_settings exifW).1,
   by decide,
   (exif_four_settings exifW).2.2 _ "ExposureTime" (by
     rw [show (get_exif_analysis exifW).technical_settings =
       [(Sum.inl "FNumber", ExifVal.str "f/2.8")] from by decide]
     simp)⟩
